import Mathlib

/-!
Verification of the superfan fan-control daemon (Supermicro BMC fan control).

This file is a shallow embedding of the parts of the source relevant to the
claims under study:

* `src/superfan/ipmi/commander.py` — raw-command validation, the retry loop of
  `_execute_ipmi_command`, and `set_fan_speed` with its H12 discrete speed
  steps and the `STABLE_SPEEDS` snap table;
* `src/superfan/ipmi/sensors.py` — `SensorReader.get_sensor_stats` over the
  per-sensor reading history;
* `src/superfan/control/curve.py` — `HysteresisCurve` and
  `StableSpeedCurve.__init__`;
* `src/superfan/control/manager.py` — `_init_fan_curves`, `_verify_fan_speeds`,
  `_check_safety`, `_emergency_action` and the control loop.

Python floats are modelled as rationals (`ℚ`), Python ints as `Int`/`Nat`,
fallible code as `Except`.  External effects (the `ipmitool` subprocess, the
configuration file, sensor output) are passed in explicitly as environment
records, and functions that issue commands also return a trace of the effects
they performed, in order.
-/

deriving instance DecidableEq for Except

namespace Superfan

/-- Supported Supermicro motherboard generations
(`MotherboardGeneration` in `commander.py`). -/
inductive BoardGen where
  | X9 | X10 | X11 | H12 | X13 | UNKNOWN
deriving DecidableEq, Repr

/-- Python-style exceptions raised by the embedded code. -/
inductive PyErr where
  /-- `ValueError` raised directly by the code under study. -/
  | valueError (msg : String)
  /-- `IPMIError` and its subclasses, tagged by component. -/
  | ipmiError (msg : String)
  /-- `IPMIConnectionError`. -/
  | connectionError (msg : String)
  /-- `IPMICommandError`. -/
  | commandError (msg : String)
  /-- `KeyError` from a failed dict lookup (e.g. missing config key). -/
  | keyError (msg : String)
  /-- `TypeError`, e.g. calling a function with an unexpected keyword argument. -/
  | typeError (msg : String)
deriving DecidableEq, Repr

/-- `STABLE_SPEEDS` table of `IPMICommander`: known stable fan speed points for
the H12 board, percent ↦ hex byte string (all entries have `prefix: False`,
modelled by omitting that Boolean). -/
def STABLE_SPEEDS : List (Int × String) :=
  [(100, "ff"), (75, "60"), (50, "40"), (25, "20"), (12, "10"), (0, "00")]

/-- `sorted(self.STABLE_SPEEDS.keys())` in `set_fan_speed`. -/
def stablePoints : List Int := [0, 12, 25, 50, 75, 100]

/-- `min(stable_points, key=lambda x: abs(x - speed_percent))`: Python's `min`
keeps the first element whose key is strictly smaller than the current best,
so ties resolve to the earlier (smaller) point. -/
def nearestStablePoint (p : Int) : Int :=
  match stablePoints with
  | [] => 0
  | x :: xs => xs.foldl (fun best y => if |y - p| < |best - p| then y else best) x

/-- Lookup `self.STABLE_SPEEDS[nearest_point]['hex']`. -/
def stableHexFor (n : Int) : String :=
  match STABLE_SPEEDS.find? (fun e => e.1 = n) with
  | some e => e.2
  | none => ""

/-- The discrete H12 step chosen by `set_fan_speed`:
hex byte, step name, and the hard-coded `actual_percent`. -/
structure H12Step where
  hexSpeed : String
  stepName : String
  actualPercent : Int
deriving DecidableEq, Repr

/-- The `if`-chain of `set_fan_speed` (commander.py lines 557–580) mapping the
requested percent to an H12 speed step. -/
def h12SelectStep (p : Int) : H12Step :=
  if p < 12 then ⟨"00", "off", 0⟩
  else if p < 25 then ⟨"10", "very_low", 12⟩
  else if p < 50 then ⟨"20", "low", 25⟩
  else if p < 75 then ⟨"40", "medium", 50⟩
  else if p < 85 then ⟨"60", "high", 75⟩
  else ⟨"ff", "full", 100⟩

/-- The step thresholds named by the spec's H12 table
(§4.4: off 0, very_low 12, low 25, medium 50, high 75, full 100). -/
def specH12Thresholds : List Int := [0, 12, 25, 50, 75, 100]

/-- Modelled from the spec's words (§4.4 mapping rule), for comparison with
`h12SelectStep`: "choose the step whose threshold is the greatest ≤ P
(saturating to `full` when P > 100 and to `off` when P < first threshold)". -/
def specH12Threshold (p : Int) : Int :=
  if p > 100 then 100
  else (specH12Thresholds.filter (fun t => t ≤ p)).foldl max 0

example : h12SelectStep 55 = ⟨"40", "medium", 50⟩ := by decide
example : specH12Threshold 90 = 75 := by decide
example : h12SelectStep 90 = ⟨"ff", "full", 100⟩ := by decide
example : nearestStablePoint 55 = 50 := by decide
example : nearestStablePoint 1 = 0 := by decide
example : nearestStablePoint 6 = 0 := by decide

/-- `COMMANDS[board]["SET_FAN_SPEED"]` raw-command templates. -/
def setFanSpeedTemplate : BoardGen → String
  | .X9 => "raw 0x30 0x91 0x5A 0x3 0x10"
  | .X10 => "raw 0x30 0x70 0x66 0x01 0x00"
  | .X11 => "raw 0x30 0x70 0x66 0x01 0x00"
  | .H12 => "raw 0x30 0x70 0x66 0x01"
  | .X13 => "raw 0x30 0x70 0x66 0x01 0x00"
  | .UNKNOWN => ""

/-- `pre` is a leading segment of the character list (kernel-reducible stand-in
for Python's `str.startswith`). -/
def listBeginsWith : List Char → List Char → Bool
  | [], _ => true
  | _ :: _, [] => false
  | p :: ps, c :: cs => p = c && listBeginsWith ps cs

/-- Python's `s.startswith(pre)`. -/
def strBeginsWith (s pre : String) : Bool := listBeginsWith pre.data s.data

/-- `sub` occurs somewhere in the character list. -/
def listContainsSub (sub : List Char) : List Char → Bool
  | [] => listBeginsWith sub []
  | c :: cs => listBeginsWith sub (c :: cs) || listContainsSub sub cs

/-- Python's `sub in s` on strings. -/
def strContainsSub (s sub : String) : Bool := listContainsSub sub.data s.data

/-- Python's `s.lower()` (ASCII case folding suffices for the sensor names and
patterns in this codebase). -/
def strLower (s : String) : String := ⟨s.data.map Char.toLower⟩

/-- One entry of `get_sensor_readings()` as consumed by `set_fan_speed`'s
post-verification (name and optional RPM value). -/
structure FanReading where
  name : String
  value : Option ℚ
deriving DecidableEq, Repr

/-- Fan-group classification used in `set_fan_speed` (lines 609–614) and
`_verify_fan_speeds`: `FANA*` → cpu, `FAN1`/`FAN5` → high_rpm, other `FAN*`
→ low_rpm. -/
def fanGroupFor (name : String) : String :=
  if strBeginsWith name "FANA" then "cpu"
  else if name = "FAN1" ∨ name = "FAN5" then "high_rpm"
  else "low_rpm"

/-- `FAN_RANGES` of `IPMICommander`: group ↦ (min, max, stable) RPM. -/
def FAN_RANGES : List (String × ℚ × ℚ × ℚ) :=
  [("high_rpm", (0, 1820, 1680)), ("low_rpm", (0, 1400, 1400)), ("cpu", (0, 3640, 3640))]

/-- `self.FAN_RANGES[group]['min']`. -/
def fanRangeMin (group : String) : ℚ :=
  match FAN_RANGES.find? (fun e => e.1 = group) with
  | some e => e.2.1
  | none => 0

/-- The slice of the YAML configuration consumed by `set_fan_speed`:
`config["fans"]["board_config"]["speed_steps"]` as an association list from
step name to its `threshold` value; `none` models a missing key (`KeyError`). -/
structure FanCfg where
  speedSteps : Option (List (String × Int))
deriving Repr

/-- `speed_steps[step_name]["threshold"]`. -/
def lookupStep (steps : List (String × Int)) (stepName : String) : Option Int :=
  (steps.find? (fun e => e.1 = stepName)).map (·.2)

/-- Externally visible effects performed by `set_fan_speed`, in order. -/
inductive FanEffect where
  | execCmd (cmd : String)
  | sleepSecs (secs : ℚ)
  | getReadings
  | autoMode
deriving DecidableEq, Repr

/-- `new_fans`: readings whose name starts with `FAN`. -/
def newFansOf (rs : List FanReading) : List FanReading :=
  rs.filter (fun r => strBeginsWith r.name "FAN")

/-- `working_fans`: fans with a present, strictly positive RPM value. -/
def workingFansOf (rs : List FanReading) : List FanReading :=
  (newFansOf rs).filter (fun r => match r.value with | some v => 0 < v | none => false)

/-- The first working fan (if any) whose RPM is below its group's minimum safe
speed — the fan that triggers the "Fan speed unsafe" error in the verification
loop of the H12 branch. -/
def firstUnsafeFan (rs : List FanReading) : Option FanReading :=
  (workingFansOf rs).find? (fun f => f.value.getD 0 < fanRangeMin (fanGroupFor f.name))

/-- Environment of `set_fan_speed`: the results the outside world returns for
the (at most one) speed-command dispatch, the post-change sensor read, and
`set_auto_mode` (whose internals are not under study). -/
structure SpeedEnv where
  execResult : Except PyErr String
  readings : Except PyErr (List FanReading)
  autoModeResult : Except PyErr Unit

/-- The `except Exception` handler of the H12 branch (lines 629–632): call
`set_auto_mode()` and re-raise; if `set_auto_mode` itself raises, that
exception propagates instead. -/
def h12Rescue (env : SpeedEnv) (tr : List FanEffect) (e : PyErr) :
    List FanEffect × Except PyErr Int :=
  match env.autoModeResult with
  | .ok _ => (tr ++ [.autoMode], .error e)
  | .error e2 => (tr ++ [.autoMode], .error e2)

/-- A raise preceded by an explicit `self.set_auto_mode()` inside the `try`
(lines 603–604 and 622–623): the inner `set_auto_mode` runs first; if it
raises, its exception is the one the handler sees. Either way the handler
then runs `set_auto_mode` again and re-raises. -/
def h12InnerAutoRaise (env : SpeedEnv) (tr : List FanEffect) (e : PyErr) :
    List FanEffect × Except PyErr Int :=
  match env.autoModeResult with
  | .ok _ => h12Rescue env (tr ++ [.autoMode]) e
  | .error e2 => h12Rescue env (tr ++ [.autoMode]) e2

/-- `IPMICommander.set_fan_speed(speed_percent, zone)` (commander.py
lines 469–638).  Returns the trace of effects and either the raised exception
or the final value of the local `speed_percent` — the percent reported in the
closing log line ("{zone} fan speed set to {speed_percent}%"). -/
def set_fan_speed (board : BoardGen) (cfg : FanCfg) (env : SpeedEnv)
    (speedPercent : Int) (zone : String) : List FanEffect × Except PyErr Int :=
  if ¬(0 ≤ speedPercent ∧ speedPercent ≤ 100) then
    ([], .error (.valueError "Fan speed must be between 0 and 100"))
  else if ¬(zone = "chassis" ∨ zone = "cpu") then
    ([], .error (.valueError "Zone must be chassis or cpu"))
  else if board = .UNKNOWN then
    ([], .error (.ipmiError "Unknown board generation"))
  else
    -- speed_percent = max(0, speed_percent)
    let p := max 0 speedPercent
    let nearest := nearestStablePoint p
    let hexSpeed := stableHexFor nearest
    let baseCommand := setFanSpeedTemplate board
    let zoneId := if zone = "cpu" then "0x01" else "0x00"
    if board = .H12 then
      match cfg.speedSteps with
      | none => h12Rescue env [] (.keyError "board_config speed_steps")
      | some steps =>
        let st := h12SelectStep p
        -- speed_percent = actual_percent (the hard-coded step percent)
        let reported := st.actualPercent
        match lookupStep steps st.stepName with
        | none => h12Rescue env [] (.keyError st.stepName)
        | some _threshold =>
          let command := baseCommand ++ " " ++ zoneId ++ " 0x" ++ st.hexSpeed
          match env.execResult with
          | .error e => h12Rescue env [.execCmd command] e
          | .ok _ =>
            let tr := [.execCmd command, .sleepSecs 2, .getReadings]
            match env.readings with
            | .error e => h12Rescue env tr e
            | .ok rs =>
              if (workingFansOf rs).length < 2 then
                h12InnerAutoRaise env tr
                  (.ipmiError "Fan speed change failed - insufficient working fans")
              else
                match firstUnsafeFan rs with
                | some f =>
                  h12InnerAutoRaise env tr
                    (.ipmiError ("Fan speed unsafe - " ++ f.name ++ " too low"))
                | none => (tr, .ok reported)
    else
      let command := baseCommand ++ " " ++ zoneId ++ " 0x" ++ hexSpeed
      match env.execResult with
      | .error e => ([.execCmd command], .error e)
      | .ok _ => ([.execCmd command], .ok p)

/-- A configuration carrying the H12 speed-step table at the documented
thresholds. -/
def defaultCfg : FanCfg :=
  ⟨some [("off", 0), ("very_low", 12), ("low", 25), ("medium", 50),
         ("high", 75), ("full", 100)]⟩

/-- A benign environment: dispatch succeeds, the post-change sensor read shows
two healthy working fans, `set_auto_mode` succeeds. -/
def benignEnv : SpeedEnv :=
  ⟨.ok "", .ok [⟨"FAN1", some 1680⟩, ⟨"FAN2", some 1400⟩], .ok ()⟩

example :
    set_fan_speed .H12 defaultCfg benignEnv 55 "chassis" =
      ([.execCmd "raw 0x30 0x70 0x66 0x01 0x00 0x40", .sleepSecs 2, .getReadings],
       .ok 50) := by decide

example :
    set_fan_speed .X10 defaultCfg benignEnv 1 "chassis" =
      ([.execCmd "raw 0x30 0x70 0x66 0x01 0x00 0x00 0x00"], .ok 1) := by decide

/-- Below the 85% boundary, the code's H12 step choice agrees with the spec's
greatest-threshold-≤-P rule. -/
theorem h12SelectStep_eq_spec_below85 (p : Int) (h0 : 0 ≤ p) (h : p < 85) :
    (h12SelectStep p).actualPercent = specH12Threshold p := by
  interval_cases p <;> decide

/-- From 85% up (through 100%), the code selects the `full` step. -/
theorem h12SelectStep_full_from85 (p : Int) (h : 85 ≤ p) :
    (h12SelectStep p).actualPercent = 100 := by
  unfold h12SelectStep
  split_ifs <;> first | rfl | omega

/-- C1 (amended): on an H12 board with the speed-step table present and a
benign environment, `set_fan_speed(P, chassis)` dispatches exactly the byte of
the step chosen by the code's boundaries (<12 off, <25 very_low, <50 low,
<75 medium, <85 high, else full) and reports that step's hard-coded percent as
the commanded value; below 85 the chosen step is the one whose threshold is
the greatest ≤ P, but for 85 ≤ P ≤ 100 the `full` step (100%) is chosen
rather than the greatest threshold ≤ P (75), and P outside [0,100] raises
`ValueError` instead of saturating.  In particular (witness)
`set_fan_speed(55, chassis)` dispatches speed byte 0x40 and reports 50. -/
theorem C1_h12_snap (p thr : Int) (steps : List (String × Int))
    (cfg : FanCfg) (env : SpeedEnv) (out : String) (rs : List FanReading)
    (h0 : 0 ≤ p) (h1 : p ≤ 100)
    (hsteps : cfg.speedSteps = some steps)
    (hstep : lookupStep steps (h12SelectStep p).stepName = some thr)
    (hexec : env.execResult = .ok out)
    (hreads : env.readings = .ok rs)
    (hwork : 2 ≤ (workingFansOf rs).length)
    (hsafe : firstUnsafeFan rs = none) :
    set_fan_speed .H12 cfg env p "chassis" =
      ([.execCmd ("raw 0x30 0x70 0x66 0x01 0x00 0x" ++ (h12SelectStep p).hexSpeed),
        .sleepSecs 2, .getReadings],
       .ok (h12SelectStep p).actualPercent) ∧
    (p < 85 → (h12SelectStep p).actualPercent = specH12Threshold p) ∧
    (85 ≤ p → (h12SelectStep p).actualPercent = 100) ∧
    (∀ q : Int, 100 < q →
      set_fan_speed .H12 cfg env q "chassis" =
        ([], .error (.valueError "Fan speed must be between 0 and 100"))) := by
  have hmax : max 0 p = p := max_eq_right h0
  refine ⟨?_, fun h => h12SelectStep_eq_spec_below85 p h0 h,
    fun h => h12SelectStep_full_from85 p h, fun q hq => ?_⟩
  · simp only [set_fan_speed, hmax, hsteps, hexec, hreads, hstep]
    simp only [h0, h1, and_self, not_true_eq_false, if_false]
    norm_num
    rw [hsafe, if_neg (show ¬((workingFansOf rs).length < 2) by omega)]
    simp [setFanSpeedTemplate]
  · simp only [set_fan_speed]
    rw [if_pos (by omega)]

/-- C1 counterexample: at P = 90 the claim's mapping rule (greatest threshold
≤ P, here 75 with byte 0x60) disagrees with the code, which dispatches the
`full` byte 0xff and reports 100. -/
theorem C1_counterexample :
    set_fan_speed .H12 defaultCfg benignEnv 90 "chassis" =
      ([.execCmd "raw 0x30 0x70 0x66 0x01 0x00 0xff", .sleepSecs 2, .getReadings],
       .ok 100) ∧
    specH12Threshold 90 = 75 ∧ stableHexFor 75 = "60" ∧ (100 : Int) ≠ 75 :=
  ⟨by decide, by decide, by decide, by decide⟩

/-- Witness for `C1_h12_snap` at the spec's own example P = 55. -/
theorem C1_h12_snap_witness :
    set_fan_speed .H12 defaultCfg benignEnv 55 "chassis" =
      ([.execCmd "raw 0x30 0x70 0x66 0x01 0x00 0x40", .sleepSecs 2, .getReadings],
       .ok 50) := by
  have h := (C1_h12_snap 55 50
      [("off", 0), ("very_low", 12), ("low", 25), ("medium", 50),
       ("high", 75), ("full", 100)]
      defaultCfg benignEnv "" [⟨"FAN1", some 1680⟩, ⟨"FAN2", some 1400⟩]
      (by decide) (by decide) (by decide) (by decide) (by decide) (by decide)
      (by decide) (by decide)).1
  simpa using h

/-- C2 counterexample: `set_fan_speed` applies no minimum floor at all — the
only clamp is `max(0, speed_percent)`.  On H12, a request of 5% (below the
claimed 20% floor) selects the `off` step and dispatches byte 0x00, reporting
0%; on X10, a request of 1% (below the claimed 5% floor) dispatches trailing
duty byte 0x00 — so a fan command below the claimed board minimum *is*
dispatched, refuting the clamp-to-`[floor, 100]` claim at these concrete
inputs. -/
theorem C2_no_minimum_floor :
    set_fan_speed .H12 defaultCfg benignEnv 5 "chassis" =
      ([.execCmd "raw 0x30 0x70 0x66 0x01 0x00 0x00", .sleepSecs 2, .getReadings],
       .ok 0) ∧
    set_fan_speed .X10 defaultCfg benignEnv 1 "chassis" =
      ([.execCmd "raw 0x30 0x70 0x66 0x01 0x00 0x00 0x00"], .ok 1) ∧
    (0 : Int) < 20 ∧ nearestStablePoint 1 = 0 ∧ stableHexFor 0 = "00" :=
  ⟨by decide, by decide, by decide, by decide, by decide⟩

/-- The H12 step selection reports 0% exactly for requests below 12 — there
is no 20% floor ahead of it. -/
theorem h12_off_step_iff (p : Int) :
    (h12SelectStep p).actualPercent = 0 ↔ p < 12 := by
  unfold h12SelectStep
  split_ifs <;> simp <;> omega

/-- The H12 step selection dispatches the `off` byte `00` exactly for
requests below 12. -/
theorem h12_off_hex_iff (p : Int) :
    (h12SelectStep p).hexSpeed = "00" ↔ p < 12 := by
  unfold h12SelectStep
  split_ifs <;> simp_all <;> omega

/-- The non-H12 snap dispatches the byte `00` (the 0% stable point) exactly
for requests of at most 6 — there is no 5% floor ahead of it. -/
theorem nearestHex_zero_iff (p : Int) (h0 : 0 ≤ p) (h1 : p ≤ 100) :
    stableHexFor (nearestStablePoint p) = "00" ↔ p ≤ 6 := by
  interval_cases p <;> decide

/-- C2 (amended): `set_fan_speed` validates that the requested percent lies in
[0, 100] — raising `ValueError` outside it — and otherwise applies only
`max(0, P)`: no board-minimum floor is enforced before selecting the
operating point.  On H12 the step is chosen from the raw request, selecting
the `off` (0%) step with byte 0x00 exactly when P < 12; on X-series boards
the duty byte is the raw request's nearest `STABLE_SPEEDS` point, which is
the byte 0x00 (0%) exactly when P ≤ 6; the reported percent is the step's
percent (H12) or the un-floored request (others). -/
theorem C2_no_floor (p thr : Int) (steps : List (String × Int))
    (cfg : FanCfg) (env : SpeedEnv) (out : String) (rs : List FanReading)
    (h0 : 0 ≤ p) (h1 : p ≤ 100)
    (hsteps : cfg.speedSteps = some steps)
    (hstep : lookupStep steps (h12SelectStep p).stepName = some thr)
    (hexec : env.execResult = .ok out)
    (hreads : env.readings = .ok rs)
    (hwork : 2 ≤ (workingFansOf rs).length)
    (hsafe : firstUnsafeFan rs = none) :
    set_fan_speed .H12 cfg env p "chassis" =
      ([.execCmd ("raw 0x30 0x70 0x66 0x01 0x00 0x" ++ (h12SelectStep p).hexSpeed),
        .sleepSecs 2, .getReadings],
       .ok (h12SelectStep p).actualPercent) ∧
    ((h12SelectStep p).actualPercent = 0 ↔ p < 12) ∧
    ((h12SelectStep p).hexSpeed = "00" ↔ p < 12) ∧
    set_fan_speed .X10 cfg env p "chassis" =
      ([.execCmd ("raw 0x30 0x70 0x66 0x01 0x00 0x00 0x" ++
        stableHexFor (nearestStablePoint p))], .ok p) ∧
    (stableHexFor (nearestStablePoint p) = "00" ↔ p ≤ 6) ∧
    (∀ q : Int, q < 0 ∨ 100 < q →
      set_fan_speed .X10 cfg env q "chassis" =
        ([], .error (.valueError "Fan speed must be between 0 and 100"))) := by
  have hmax : max 0 p = p := max_eq_right h0
  refine ⟨?_, h12_off_step_iff p, h12_off_hex_iff p, ?_,
    nearestHex_zero_iff p h0 h1, fun q hq => ?_⟩
  · simp only [set_fan_speed, hmax, hsteps, hexec, hreads, hstep]
    simp only [h0, h1, and_self, not_true_eq_false, if_false]
    norm_num
    rw [hsafe, if_neg (show ¬((workingFansOf rs).length < 2) by omega)]
    simp [setFanSpeedTemplate]
  · simp only [set_fan_speed, hmax, hexec]
    simp only [h0, h1, and_self, not_true_eq_false, if_false]
    norm_num
    rw [if_neg (show ¬(BoardGen.X10 = BoardGen.UNKNOWN) by decide),
        if_neg (show ¬(BoardGen.X10 = BoardGen.H12) by decide)]
    simp [setFanSpeedTemplate]
  · simp only [set_fan_speed]
    rw [if_pos (by omega)]

/-- Witness for `C2_no_floor` at P = 5: on H12 the `off` byte 0x00 is
dispatched and 0% reported; on X10 the 0% duty byte 0x00 is dispatched. -/
theorem C2_no_floor_witness :
    set_fan_speed .H12 defaultCfg benignEnv 5 "chassis" =
      ([.execCmd "raw 0x30 0x70 0x66 0x01 0x00 0x00", .sleepSecs 2, .getReadings],
       .ok 0) ∧
    set_fan_speed .X10 defaultCfg benignEnv 5 "chassis" =
      ([.execCmd "raw 0x30 0x70 0x66 0x01 0x00 0x00 0x00"], .ok 5) := by
  have h := C2_no_floor 5 0
    [("off", 0), ("very_low", 12), ("low", 25), ("medium", 50),
     ("high", 75), ("full", 100)]
    defaultCfg benignEnv "" [⟨"FAN1", some 1680⟩, ⟨"FAN2", some 1400⟩]
    (by decide) (by decide) (by decide) (by decide) (by decide) (by decide)
    (by decide) (by decide)
  exact ⟨by simpa using h.1, by simpa using h.2.2.2.1⟩

/-- Modelled from the spec (§4.4), for comparison with the code: the continuous
duty map claimed for non-H12 boards, `byte = round(P·255/100)` clamped to
`[0x04, 0xFF]`. -/
def specDutyByte (p : Int) : Int := min 255 (max 4 (round ((p : ℚ) * 255 / 100)))

/-- C3 (code bug): non-H12 boards do not use the continuous duty map at all —
`set_fan_speed` snaps every board to the nearest `STABLE_SPEEDS` point.  At
P = 1 it dispatches duty byte 0x00 (the forbidden byte; the claimed map gives
0x04), and at P = 55 it dispatches 0x40 = 64 (the claimed map gives 140). -/
theorem C3_non_h12_not_continuous :
    set_fan_speed .X10 defaultCfg benignEnv 1 "chassis" =
      ([.execCmd "raw 0x30 0x70 0x66 0x01 0x00 0x00 0x00"], .ok 1) ∧
    specDutyByte 1 = 4 ∧ nearestStablePoint 1 = 0 ∧ stableHexFor 0 = "00" ∧
    set_fan_speed .X10 defaultCfg benignEnv 55 "chassis" =
      ([.execCmd "raw 0x30 0x70 0x66 0x01 0x00 0x00 0x40"], .ok 55) ∧
    specDutyByte 55 = 140 ∧ nearestStablePoint 55 = 50 ∧ stableHexFor 50 = "40" ∧
    ((0x40 : Int) ≠ 140 ∧ (0 : Int) ≠ 4) := by
  refine ⟨by decide, ?_, by decide, by decide, by decide, ?_, by decide, by decide,
    by decide, by decide⟩
  · unfold specDutyByte
    norm_num [round_eq]
  · unfold specDutyByte
    norm_num [round_eq]

/-- `BLACKLISTED_COMMANDS` of `IPMICommander`. -/
def BLACKLISTED_COMMANDS : List (Int × Int) := [(0x06, 0x01), (0x06, 0x02)]

/-- `[m.value for m in FanMode]`: STANDARD 0x00, FULL 0x01, OPTIMAL 0x02,
HEAVY_IO 0x04. -/
def validFanModes : List Int := [0x00, 0x01, 0x02, 0x04]

/-- Numeric value of one hex digit. -/
def hexDigitVal (c : Char) : Option Nat :=
  if '0' ≤ c ∧ c ≤ '9' then some (c.toNat - '0'.toNat)
  else if 'a' ≤ c ∧ c ≤ 'f' then some (c.toNat - 'a'.toNat + 10)
  else if 'A' ≤ c ∧ c ≤ 'F' then some (c.toNat - 'A'.toNat + 10)
  else none

/-- Accumulate hex digits; `none` on any non-digit. -/
def parseHexDigitsAux : List Char → Nat → Option Nat
  | [], acc => some acc
  | c :: cs, acc =>
    match hexDigitVal c with
    | some d => parseHexDigitsAux cs (acc * 16 + d)
    | none => none

/-- Parse a nonempty string of hex digits. -/
def parseHexDigits : List Char → Option Nat
  | [] => none
  | c :: cs => parseHexDigitsAux (c :: cs) 0

/-- Drop a leading `0x` / `0X`. -/
def stripHexMarker : List Char → List Char
  | '0' :: 'x' :: cs => cs
  | '0' :: 'X' :: cs => cs
  | cs => cs

/-- Python's `int(s, 16)` on the whitespace-free tokens that occur here:
optional sign, optional `0x`/`0X` marker, then at least one hex digit;
`none` models the `ValueError` (digit-group underscores are not modelled —
no token in this codebase contains one). -/
def parseHexPy (s : String) : Option Int :=
  match s.data with
  | '-' :: cs => (parseHexDigits (stripHexMarker cs)).map (fun n => -(n : Int))
  | '+' :: cs => (parseHexDigits (stripHexMarker cs)).map (fun n => (n : Int))
  | cs => (parseHexDigits (stripHexMarker cs)).map (fun n => (n : Int))

/-- The per-token format pre-check of `_validate_raw_command` (lines 179–184):
strip a `0x` marker, then every remaining character must be a hex digit
(vacuously true for the empty remainder, as in Python's `all`). -/
def hexFormatOk (p : String) : Bool :=
  let hexVal := if strBeginsWith p "0x" then p.data.drop 2 else p.data
  hexVal.all (fun c => c ∈ "0123456789abcdefABCDEF".data)

/-- Python's `hex(n)` (used in the blacklist error message). -/
def pyHex (n : Int) : String :=
  if n < 0 then "-0x" ++ ⟨Nat.toDigits 16 n.natAbs⟩
  else "0x" ++ ⟨Nat.toDigits 16 n.toNat⟩

/-- `IPMICommander._validate_raw_command` (commander.py lines 148–210) over the
whitespace-tokenized command.  Returns `ok` for accepted commands and the
raised `IPMIError` otherwise. -/
def _validate_raw_command (parts : List String) : Except PyErr Unit :=
  if parts.length < 3 ∨ parts.head? ≠ some "raw" then .ok ()
  else if ¬ ((parts.drop 1).take 2).all hexFormatOk then
    .error (.ipmiError "Invalid command format: malformed hex value")
  else
    match parseHexPy (parts.getD 1 ""), parseHexPy (parts.getD 2 "") with
    | some netfn, some cmd =>
      if (netfn, cmd) ∈ BLACKLISTED_COMMANDS then
        .error (.ipmiError
          ("Command " ++ pyHex netfn ++ " " ++ pyHex cmd ++ " is blacklisted for safety"))
      else if netfn = 0x30 then
        if cmd = 0x45 then
          if 5 ≤ parts.length then
            match parseHexPy (parts.getD 4 "") with
            | some mode =>
                if mode ∉ validFanModes then
                  .error (.ipmiError ("Invalid fan mode: " ++ pyHex mode))
                else .ok ()
            | none => .error (.ipmiError "Invalid command format: invalid literal")
          else .ok ()
        else if cmd = 0x70 ∨ cmd = 0x91 then
          if 7 ≤ parts.length then
            match parseHexPy (parts.getLast?.getD "") with
            | some speed =>
                if speed < 0x00 then
                  .error (.ipmiError ("Invalid fan speed: " ++ pyHex speed))
                else .ok ()
            | none => .error (.ipmiError "Invalid command format: invalid literal")
          else .ok ()
        else .ok ()
      else .ok ()
    | _, _ => .error (.ipmiError "Invalid command format: invalid literal")

example : _validate_raw_command ["raw", "0x30", "0x45", "0x01", "0x01"] = .ok () := by decide
example : _validate_raw_command ["raw", "0x30", "0x70", "0x66", "0x01", "0x00", "0x00"] = .ok () := by decide
example : _validate_raw_command ["raw", "0xZZ", "0x01"] =
    .error (.ipmiError "Invalid command format: malformed hex value") := by decide

/-- Outcome of one `subprocess.run` invocation of ipmitool as observed by
`_execute_ipmi_command`: success with stdout, a `CalledProcessError` carrying
stderr, or any other exception. -/
inductive RunResult where
  | ok (out : String)
  | calledProcessError (stderr : String)
  | exc (msg : String)
deriving DecidableEq, Repr

/-- `"Device or resource busy" in e.stderr`. -/
def isBusyStderr (s : String) : Bool := strContainsSub s "Device or resource busy"

/-- `"Error in open session" in e.stderr`. -/
def isSessionStderr (s : String) : Bool := strContainsSub s "Error in open session"

/-- Result of `_execute_ipmi_command`: the surfaced result, the number of
subprocess invocations actually performed, and the retry-delay sleeps
performed (the 2 s post-success settle sleep is not part of the retry policy
and is not recorded). -/
structure ExecOutcome where
  result : Except PyErr String
  attempts : Nat
  delays : List ℚ
deriving DecidableEq, Repr

/-- The `for attempt in range(retries)` loop of `_execute_ipmi_command`
(commander.py lines 243–275).  `attempt` is the current index; the structural
recursion is on the remaining budget `retries - attempt` (passed last, so the
definition reduces by computation).  The final
`raise IPMIError("Command failed after …")` is the loop-exhausted case. -/
def ipmiLoop (transport : Nat → RunResult) (retries : Nat) (retryDelay : ℚ)
    (attempt : Nat) : Nat → ExecOutcome
  | 0 =>
    ⟨.error (.ipmiError ("Command failed after " ++ toString retries ++ " attempts")),
     0, []⟩
  | remaining + 1 =>
    let pre : List ℚ := if 0 < attempt then [retryDelay] else []
    match transport attempt with
    | .ok out => ⟨.ok out, 1, pre⟩
    | .calledProcessError stderr =>
      if isBusyStderr stderr then
        let rest := ipmiLoop transport retries retryDelay (attempt + 1) remaining
        ⟨rest.result, rest.attempts + 1, pre ++ rest.delays⟩
      else if isSessionStderr stderr then
        ⟨.error (.connectionError ("Failed to connect to IPMI: " ++ stderr)), 1, pre⟩
      else if attempt = retries - 1 then
        ⟨.error (.commandError ("Command failed after " ++ toString retries
            ++ " attempts: " ++ stderr)), 1, pre⟩
      else
        let rest := ipmiLoop transport retries retryDelay (attempt + 1) remaining
        ⟨rest.result, rest.attempts + 1, pre ++ rest.delays⟩
    | .exc msg =>
      if attempt = retries - 1 then
        ⟨.error (.ipmiError ("Unexpected error after " ++ toString retries
            ++ " attempts: " ++ msg)), 1, pre⟩
      else
        let rest := ipmiLoop transport retries retryDelay (attempt + 1) remaining
        ⟨rest.result, rest.attempts + 1, pre ++ rest.delays⟩

/-- `IPMICommander._execute_ipmi_command(command, retries=3, retry_delay=1.0)`:
validate, then run the attempt loop starting at attempt 0 with the full
budget. -/
def _execute_ipmi_command (parts : List String) (transport : Nat → RunResult)
    (retries : Nat) (retryDelay : ℚ) : ExecOutcome :=
  match _validate_raw_command parts with
  | .error e => ⟨.error e, 0, []⟩
  | .ok _ => ipmiLoop transport retries retryDelay 0 retries

/-- One attempt's classification, mirroring the `try`/`except` arms:
`inl` = the loop finishes with this result; `inr` = the loop retries
(or exhausts, if this was the final attempt). -/
def runStep (r : RunResult) (final : Bool) : Except PyErr String ⊕ Unit :=
  match r with
  | .ok o => .inl (.ok o)
  | .calledProcessError s =>
    if isBusyStderr s then .inr ()
    else if isSessionStderr s then
      .inl (.error (.connectionError ("Failed to connect to IPMI: " ++ s)))
    else if final then
      .inl (.error (.commandError ("Command failed after 3 attempts: " ++ s)))
    else .inr ()
  | .exc m =>
    if final then .inl (.error (.ipmiError ("Unexpected error after 3 attempts: " ++ m)))
    else .inr ()

/-- Reference unrolling of the default 3-attempt policy: attempt 0 with no
delay, then 1 s delay before each of attempts 1 and 2; attempt 2 is final. -/
def retryReference (t : Nat → RunResult) : ExecOutcome :=
  match runStep (t 0) false with
  | .inl r => ⟨r, 1, []⟩
  | .inr _ =>
    match runStep (t 1) false with
    | .inl r => ⟨r, 2, [1]⟩
    | .inr _ =>
      match runStep (t 2) true with
      | .inl r => ⟨r, 3, [1, 1]⟩
      | .inr _ => ⟨.error (.ipmiError "Command failed after 3 attempts"), 3, [1, 1]⟩

/-- The loop at the default budget equals the reference unrolling. -/
theorem ipmiLoop_three_eq_reference (t : Nat → RunResult) :
    ipmiLoop t 3 1 0 3 = retryReference t := by
  rcases h0 : t 0 with o0 | s0 | m0 <;>
    rcases h1 : t 1 with o1 | s1 | m1 <;>
      rcases h2 : t 2 with o2 | s2 | m2 <;>
        simp [ipmiLoop, retryReference, runStep, h0, h1, h2] <;>
          (try split_ifs) <;> (try simp_all [ipmiLoop, h2]) <;> rfl

/-- Helper: the two tokens checked by the hex-format pre-pass. -/
theorem dropOneTakeTwo (l : List String) (h : 3 ≤ l.length) :
    (l.drop 1).take 2 = [l.getD 1 "", l.getD 2 ""] := by
  match l with
  | a :: b :: c :: r => rfl
  | [] => simp at h
  | [a] => simp at h
  | [a, b] => simp at h

/-- C4: every raw command whose (netfn, cmd) pair is blacklisted —
(0x06, 0x01) or (0x06, 0x02) — is rejected by `_validate_raw_command` with the
blacklist `IPMIError`, and `_execute_ipmi_command` therefore surfaces that
error with zero transport invocations (the `subprocess` layer is never
reached). -/
theorem C4_blacklist_rejected (parts : List String) (transport : Nat → RunResult)
    (retries : Nat) (retryDelay : ℚ) (netfn cmd : Int)
    (hraw : parts.head? = some "raw") (hlen : 3 ≤ parts.length)
    (hfmt1 : hexFormatOk (parts.getD 1 "") = true)
    (hfmt2 : hexFormatOk (parts.getD 2 "") = true)
    (hn : parseHexPy (parts.getD 1 "") = some netfn)
    (hc : parseHexPy (parts.getD 2 "") = some cmd)
    (hbl : (netfn, cmd) ∈ BLACKLISTED_COMMANDS) :
    _validate_raw_command parts =
      .error (.ipmiError
        ("Command " ++ pyHex netfn ++ " " ++ pyHex cmd ++ " is blacklisted for safety")) ∧
    _execute_ipmi_command parts transport retries retryDelay =
      ⟨.error (.ipmiError
        ("Command " ++ pyHex netfn ++ " " ++ pyHex cmd ++ " is blacklisted for safety")),
       0, []⟩ := by
  have hval : _validate_raw_command parts =
      .error (.ipmiError
        ("Command " ++ pyHex netfn ++ " " ++ pyHex cmd ++ " is blacklisted for safety")) := by
    have hall : ((parts.drop 1).take 2).all hexFormatOk = true := by
      rw [dropOneTakeTwo parts hlen]
      simp only [List.all_cons, List.all_nil, Bool.and_true]
      rw [hfmt1, hfmt2]
      rfl
    unfold _validate_raw_command
    rw [if_neg (by simp [hraw]; omega), if_neg (not_not_intro hall)]
    rw [hn, hc]
    simp [hbl]
  exact ⟨hval, by simp [_execute_ipmi_command, hval]⟩

/-- Witness for `C4_blacklist_rejected` at the spec's own example
`raw 0x06 0x01`. -/
theorem C4_blacklist_rejected_witness :
    _validate_raw_command ["raw", "0x06", "0x01"] =
      .error (.ipmiError "Command 0x6 0x1 is blacklisted for safety") ∧
    _execute_ipmi_command ["raw", "0x06", "0x01"] (fun _ => .ok "") 3 1 =
      ⟨.error (.ipmiError "Command 0x6 0x1 is blacklisted for safety"), 0, []⟩ := by
  have h := C4_blacklist_rejected ["raw", "0x06", "0x01"] (fun _ => .ok "") 3 1 6 1
    (by decide) (by decide) (by decide) (by decide) (by decide) (by decide) (by decide)
  simpa using h

/-- C6 (amended): with the default budget (`retries=3, retry_delay=1.0`), any
valid command makes at most 3 transport attempts, with a fixed 1 s delay
before each attempt after the first; the full behaviour is the reference
unrolling `retryReference`, in which a `CalledProcessError` whose stderr marks
a busy device *or any other command failure* is retried on non-final attempts,
an open-session (connection-lost) stderr aborts immediately as
`IPMIConnectionError` on whatever attempt it occurs, and a command failure on
the final attempt surfaces as `IPMICommandError`. -/
theorem C6_retry_policy (parts : List String) (t : Nat → RunResult)
    (hv : _validate_raw_command parts = .ok ()) :
    _execute_ipmi_command parts t 3 1 = retryReference t ∧
    (_execute_ipmi_command parts t 3 1).attempts ≤ 3 ∧
    (_execute_ipmi_command parts t 3 1).delays =
      List.replicate ((_execute_ipmi_command parts t 3 1).attempts - 1) (1 : ℚ) ∧
    (∀ s, t 0 = .calledProcessError s → isBusyStderr s = false →
      isSessionStderr s = true →
      _execute_ipmi_command parts t 3 1 =
        ⟨.error (.connectionError ("Failed to connect to IPMI: " ++ s)), 1, []⟩) ∧
    (∀ s, t 0 = .calledProcessError s → isSessionStderr s = false →
      2 ≤ (_execute_ipmi_command parts t 3 1).attempts) := by
  have heq : _execute_ipmi_command parts t 3 1 = retryReference t := by
    simp [_execute_ipmi_command, hv, ipmiLoop_three_eq_reference]
  refine ⟨heq, ?_, ?_, ?_, ?_⟩
  · rw [heq]
    unfold retryReference
    rcases h0 : runStep (t 0) false with r | u
    · simp
    · rcases h1 : runStep (t 1) false with r | u
      · simp
      · rcases h2 : runStep (t 2) true with r | u <;> simp
  · rw [heq]
    unfold retryReference
    rcases h0 : runStep (t 0) false with r | u
    · simp
    · rcases h1 : runStep (t 1) false with r | u
      · simp
      · rcases h2 : runStep (t 2) true with r | u <;> simp
  · intro s h0 hb hs
    have hrs : runStep (t 0) false =
        .inl (.error (.connectionError ("Failed to connect to IPMI: " ++ s))) := by
      simp [runStep, h0, hb, hs]
    rw [heq]
    unfold retryReference
    rw [hrs]
  · intro s h0 hs
    have hrs : runStep (t 0) false = .inr () := by
      by_cases hb : isBusyStderr s = true
      · simp [runStep, h0, hb]
      · simp only [Bool.not_eq_true] at hb
        simp [runStep, h0, hb, hs]
    rw [heq]
    unfold retryReference
    rw [hrs]
    rcases h1 : runStep (t 1) false with r | u
    · simp
    · rcases h2 : runStep (t 2) true with r | u <;> simp

/-- Transport for the C6 counterexample: a non-busy, non-connection command
failure on attempt 0, success on attempt 1. -/
def c6Transport : Nat → RunResult := fun n =>
  if n = 0 then .calledProcessError "ipmitool exited with status 1" else .ok "done"

/-- C6 counterexample: a failure that is *not* DeviceBusy (and not
ConnectionLost) on the first attempt is nevertheless retried — the command
succeeds on the second attempt after a 1 s delay — refuting "only a DeviceBusy
transport failure triggers a retry". -/
theorem C6_counterexample :
    _execute_ipmi_command ["sdr", "list"] c6Transport 3 1 = ⟨.ok "done", 2, [1]⟩ ∧
    isBusyStderr "ipmitool exited with status 1" = false ∧
    isSessionStderr "ipmitool exited with status 1" = false := by
  refine ⟨by decide, by decide, by decide⟩

/-- Witness for `C6_retry_policy` on a concrete always-succeeding transport. -/
theorem C6_retry_policy_witness :
    _execute_ipmi_command ["sdr", "list"] (fun _ => .ok "out") 3 1 =
      retryReference (fun _ => .ok "out") ∧
    (_execute_ipmi_command ["sdr", "list"] (fun _ => .ok "out") 3 1).attempts ≤ 3 := by
  have h := C6_retry_policy ["sdr", "list"] (fun _ => .ok "out") (by decide)
  exact ⟨h.1, h.2.1⟩

/-- Python's `abs` on a float, as a computable function on ℚ. -/
def pyAbs (q : ℚ) : ℚ := if q < 0 then -q else q

theorem pyAbs_eq_abs (q : ℚ) : pyAbs q = |q| := by
  unfold pyAbs
  rcases lt_or_ge q 0 with h | h
  · rw [if_pos h, abs_of_neg h]
  · rw [if_neg (not_lt.mpr h), abs_of_nonneg h]

/-- `HysteresisCurve.__init__`: `self.hysteresis = abs(hysteresis)` — the
stored width is the absolute value of the constructor argument. -/
def hysteresisWidth (h : ℚ) : ℚ := pyAbs h

/-- `HysteresisCurve.get_speed` (curve.py lines 294–321).  The Python object
keeps `_last_temp` and `_last_speed` in two fields that are both `None`
initially and always assigned together; they are modelled as one
`Option (ℚ × α)`.  The base curve is an arbitrary function (`α` is the base
curve's result type — a percent for Linear/Step, a speed-info record for
StableSpeedCurve). -/
def hysteresisGetSpeed {α : Type} (curve : ℚ → α) (width : ℚ)
    (s : Option (ℚ × α)) (t : ℚ) : α × Option (ℚ × α) :=
  match s with
  | none =>
    let r := curve t
    (r, some (t, r))
  | some (t0, r0) =>
    if pyAbs (t - t0) ≥ width then
      let r := curve t
      (r, some (t, r))
    else (r0, some (t0, r0))

/-- Evaluate a hysteresis curve on a sequence of temperature deltas, returning
the sequence of results (state threaded through the calls). -/
def hysteresisRun {α : Type} (curve : ℚ → α) (width : ℚ) :
    Option (ℚ × α) → List ℚ → List α
  | _, [] => []
  | s, t :: ts =>
    let step := hysteresisGetSpeed curve width s t
    step.1 :: hysteresisRun curve width step.2 ts

/-- Base curve for the C7 counterexample (any curve not constant between 0 and
4 works; e.g. a step curve). -/
def c7Curve (t : ℚ) : Int := if 3 ≤ t then 100 else 50

/-- C7 counterexample: width 3, calls at Δt = 0, 2, 4.  The consecutive pair
(Δt₀, Δt₁) = (2, 4) satisfies |Δt₁ − Δt₀| = 2 < 3, yet H(2) = 50 while
H(4) = 100: the guard compares Δt against the *remembered* temperature (0, the
last one at which the inner curve was evaluated), not against the previous
call's Δt, so |4 − 0| ≥ 3 re-evaluates. -/
theorem C7_counterexample :
    hysteresisRun c7Curve (hysteresisWidth 3) none [0, 2, 4] = [50, 50, 100] ∧
    |(4 : ℚ) - 2| < 3 ∧ (50 : Int) ≠ 100 :=
  ⟨by norm_num [hysteresisRun, hysteresisGetSpeed, hysteresisWidth, pyAbs, c7Curve],
   by norm_num, by decide⟩

/-- C7 (amended): a hysteresis curve of width `w` returns the remembered
result, does not re-evaluate the inner curve (the result is independent of the
inner curve), and leaves its state unchanged whenever the new delta is within
`|w|` of the *last remembered* temperature — the temperature of the most
recent call that evaluated the inner curve, not necessarily the immediately
preceding call.  On the very first call it delegates to the inner curve and
remembers the temperature and result; the width is direction-agnostic
(`abs` applied at construction). -/
theorem C7_hysteresis_hold {α : Type} (curve curve2 : ℚ → α) (w t0 t1 : ℚ) (r0 : α)
    (h : |t1 - t0| < hysteresisWidth w) :
    hysteresisGetSpeed curve (hysteresisWidth w) (some (t0, r0)) t1 =
      (r0, some (t0, r0)) ∧
    hysteresisGetSpeed curve (hysteresisWidth w) (some (t0, r0)) t1 =
      hysteresisGetSpeed curve2 (hysteresisWidth w) (some (t0, r0)) t1 ∧
    (∀ t, hysteresisGetSpeed curve (hysteresisWidth w) none t =
      (curve t, some (t, curve t))) ∧
    hysteresisWidth w = hysteresisWidth (-w) := by
  have hni : ¬(pyAbs (t1 - t0) ≥ hysteresisWidth w) := by
    rw [pyAbs_eq_abs]
    exact not_le.mpr h
  refine ⟨?_, ?_, fun t => rfl, ?_⟩
  · simp [hysteresisGetSpeed, hni]
  · simp [hysteresisGetSpeed, hni]
  · simp [hysteresisWidth, pyAbs_eq_abs, abs_neg]

/-- Witness for `C7_hysteresis_hold`: width 3, remembered (0, 50), new Δt 2. -/
theorem C7_hysteresis_hold_witness :
    hysteresisGetSpeed c7Curve (hysteresisWidth 3) (some (0, 50)) 2 =
      ((50 : Int), some (0, 50)) ∧
    hysteresisGetSpeed c7Curve (hysteresisWidth 3) (some (0, 50)) 2 =
      hysteresisGetSpeed (fun _ => (0 : Int)) (hysteresisWidth 3) (some (0, 50)) 2 := by
  have h := C7_hysteresis_hold c7Curve (fun _ => (0 : Int)) 3 0 2 50
    (by rw [hysteresisWidth, pyAbs_eq_abs]; norm_num)
  exact ⟨h.1, h.2.1⟩

example : hysteresisGetSpeed c7Curve (hysteresisWidth 3) (some (0, 50)) 4 =
    (100, some (4, 100)) := by
  norm_num [hysteresisGetSpeed, hysteresisWidth, pyAbs, c7Curve]

/-- `SensorReading` dataclass (sensors.py lines 19–78). -/
structure SensorReading where
  name : String
  value : Option ℚ
  timestamp : ℚ
  state : String
  responseId : Option Int
deriving DecidableEq, Repr

/-- `reading.age` at wall-clock time `now`. -/
def readingAge (now : ℚ) (r : SensorReading) : ℚ := now - r.timestamp

/-- `SensorReading.is_valid`: state is not `ns` and a value is present. -/
def isValidReading (r : SensorReading) : Bool :=
  decide (r.state ≠ "ns") && r.value.isSome

/-- The slice of `SensorReader` consumed by `get_sensor_stats`: the
`_readings` map (association list preserving per-sensor append order),
`reading_timeout` and `min_readings`. -/
structure SensorStore where
  readings : List (String × List SensorReading)
  readingTimeout : ℚ
  minReadings : Nat
deriving Repr

/-- `sensor_name in self._readings` / `self._readings[sensor_name]`. -/
def storeLookup (store : List (String × List SensorReading)) (name : String) :
    Option (List SensorReading) :=
  (store.find? (fun e => e.1 = name)).map (fun e => e.2)

/-- The `valid_readings` filter of `get_sensor_stats` (line 549):
`r.age <= self.reading_timeout and r.is_valid`. -/
def validReadingsOf (timeout now : ℚ) (rs : List SensorReading) : List SensorReading :=
  rs.filter (fun r => decide (readingAge now r ≤ timeout) && isValidReading r)

/-- Number of valid readings a sensor currently has. -/
def validCount (store : SensorStore) (now : ℚ) (name : String) : Nat :=
  (validReadingsOf store.readingTimeout now ((storeLookup store.readings name).getD [])).length

/-- Values of the valid readings, in order (`[r.value for r in valid_readings]`;
every valid reading has a present value). -/
def validValues (store : SensorStore) (now : ℚ) (name : String) : List ℚ :=
  (validReadingsOf store.readingTimeout now
    ((storeLookup store.readings name).getD [])).filterMap (fun r => r.value)

/-- Sample variance of a list of values.  Python's `statistics.stdev` is the
square root of this quantity (irrational in general); only its *presence* in
the stats dict is under study, so the stats record carries the variance. -/
def sampleVariance (values : List ℚ) : ℚ :=
  let m := values.sum / values.length
  (values.map (fun v => (v - m) ^ 2)).sum / ((values.length : ℚ) - 1)

/-- The statistics dict built by `get_sensor_stats`; `stdevSq` is `some` iff
the `"stdev"` key is present. -/
structure SensorStats where
  current : Option ℚ
  minVal : ℚ
  maxVal : ℚ
  avg : ℚ
  stdevSq : Option ℚ
deriving DecidableEq, Repr

/-- `SensorReader.get_sensor_stats` (sensors.py lines 506–569).  The `.error`
outcomes model the `IndexError`/`ValueError` Python would raise on
`valid_readings[-1]` / `min(values)` when the valid list is empty yet passes
the `min_readings` guard (possible only when `min_readings = 0`). -/
def get_sensor_stats (store : SensorStore) (now : ℚ) (sensorName : String) :
    Except PyErr (Option SensorStats) :=
  match storeLookup store.readings sensorName with
  | none => .ok none
  | some rs =>
    let valid := validReadingsOf store.readingTimeout now rs
    if valid.length < store.minReadings then .ok none
    else
      match valid.getLast? with
      | none => .error (.valueError "IndexError: list index out of range")
      | some last =>
        let values := valid.filterMap (fun r => r.value)
        match values.min?, values.max? with
        | some mn, some mx =>
          .ok (some { current := last.value, minVal := mn, maxVal := mx,
                      avg := values.sum / values.length,
                      stdevSq := if 1 < values.length then some (sampleVariance values)
                                 else none })
        | _, _ => .error (.valueError "min() arg is an empty sequence")

/-- The most recent (latest-appended) reading that is fresh and valid — the
reading whose value the spec says `current` must reflect. -/
def mostRecentValidReading (timeout now : ℚ) (rs : List SensorReading) :
    Option SensorReading :=
  rs.reverse.find? (fun r => decide (readingAge now r ≤ timeout) && isValidReading r)

theorem head?_filter {α : Type} (p : α → Bool) :
    ∀ l : List α, (l.filter p).head? = l.find? p := by
  intro l
  induction l with
  | nil => rfl
  | cons a l ih =>
    by_cases h : p a
    · simp [List.filter_cons, List.find?_cons, h]
    · simp only [Bool.not_eq_true] at h
      simp [List.filter_cons, List.find?_cons, h, ih]

theorem getLast?_filter {α : Type} (p : α → Bool) (l : List α) :
    (l.filter p).getLast? = l.reverse.find? p := by
  rw [List.getLast?_eq_head?_reverse, ← List.filter_reverse, head?_filter]

theorem filterMap_value_length (l : List SensorReading)
    (h : ∀ r ∈ l, r.value.isSome) :
    (l.filterMap (fun r => r.value)).length = l.length := by
  induction l with
  | nil => rfl
  | cons a l ih =>
    have ha : a.value.isSome := h a (by simp)
    rcases hv : a.value with _ | v
    · rw [hv] at ha
      simp at ha
    · simp only [List.filterMap_cons, hv, List.length_cons]
      rw [ih (fun r hr => h r (by simp [hr]))]

theorem validReadings_value_isSome (timeout now : ℚ) (rs : List SensorReading) :
    ∀ r ∈ validReadingsOf timeout now rs, r.value.isSome := by
  intro r hr
  have := (List.mem_filter.mp hr).2
  simp only [Bool.and_eq_true, isValidReading] at this
  exact this.2.2

instance : Std.Antisymm (fun x1 x2 : ℚ => x1 ≤ x2) where
  antisymm h h2 := le_antisymm h h2

/-- C8 (amended): provided `min_readings ≥ 1` (with `min_readings = 0` the code
returns `None` for unknown sensors although 0 valid readings ≥ 0, and would
raise `IndexError` on a known sensor with no valid readings),
`get_sensor_stats(name)` returns `Some` statistics iff the number of valid
readings (state not `ns`, value present, age within `reading_timeout`) is at
least `min_readings`; `current` is the most recent fresh valid reading's value
(not merely the last appended reading); `stdev` is included iff there is more
than one valid reading; and min/max/avg are computed over exactly the valid
readings' values. -/
theorem C8_stats (store : SensorStore) (now : ℚ) (name : String)
    (hmin : 1 ≤ store.minReadings) :
    ((∃ st, get_sensor_stats store now name = .ok (some st)) ↔
      store.minReadings ≤ validCount store now name) ∧
    (∀ st, get_sensor_stats store now name = .ok (some st) →
      (∃ r, mostRecentValidReading store.readingTimeout now
          ((storeLookup store.readings name).getD []) = some r ∧ st.current = r.value) ∧
      (st.stdevSq.isSome ↔ 1 < validCount store now name) ∧
      st.minVal ∈ validValues store now name ∧
      st.maxVal ∈ validValues store now name ∧
      (∀ v ∈ validValues store now name, st.minVal ≤ v ∧ v ≤ st.maxVal) ∧
      st.avg = (validValues store now name).sum / (validValues store now name).length) := by
  rcases hL : storeLookup store.readings name with _ | rs
  · refine ⟨⟨?_, ?_⟩, ?_⟩
    · rintro ⟨st, hst⟩
      simp [get_sensor_stats, hL] at hst
    · intro hc
      have h0 : validCount store now name = 0 := by
        simp [validCount, hL, validReadingsOf]
      omega
    · intro st hst
      simp [get_sensor_stats, hL] at hst
  · have hvc : validCount store now name =
        (validReadingsOf store.readingTimeout now rs).length := by
      simp [validCount, hL]
    have hvv : validValues store now name =
        (validReadingsOf store.readingTimeout now rs).filterMap (fun r => r.value) := by
      simp [validValues, hL]
    by_cases hlen : (validReadingsOf store.readingTimeout now rs).length < store.minReadings
    · have hst : get_sensor_stats store now name = .ok none := by
        unfold get_sensor_stats
        rw [hL]
        simp only [if_pos hlen]
      refine ⟨⟨?_, ?_⟩, ?_⟩
      · rintro ⟨st, h⟩
        rw [hst] at h
        simp at h
      · intro hc
        omega
      · intro st h
        rw [hst] at h
        simp at h
    · push_neg at hlen
      obtain ⟨last, hlast⟩ : ∃ last,
          (validReadingsOf store.readingTimeout now rs).getLast? = some last := by
        rcases h : (validReadingsOf store.readingTimeout now rs).getLast? with _ | last
        · rw [List.getLast?_eq_none_iff] at h
          rw [h] at hlen
          simp at hlen
          omega
        · exact ⟨last, rfl⟩
      have hvlen : ((validReadingsOf store.readingTimeout now rs).filterMap
          (fun r => r.value)).length = (validReadingsOf store.readingTimeout now rs).length :=
        filterMap_value_length _ (validReadings_value_isSome _ _ _)
      obtain ⟨mn, hmn⟩ : ∃ mn, ((validReadingsOf store.readingTimeout now rs).filterMap
          (fun r => r.value)).min? = some mn := by
        rcases h : ((validReadingsOf store.readingTimeout now rs).filterMap
            (fun r => r.value)).min? with _ | mn
        · rw [List.min?_eq_none_iff] at h
          rw [h] at hvlen
          simp at hvlen
          omega
        · first
          | exact ⟨mn, rfl⟩
          | exact ⟨mn, h⟩
      obtain ⟨mx, hmx⟩ : ∃ mx, ((validReadingsOf store.readingTimeout now rs).filterMap
          (fun r => r.value)).max? = some mx := by
        rcases h : ((validReadingsOf store.readingTimeout now rs).filterMap
            (fun r => r.value)).max? with _ | mx
        · rw [List.max?_eq_none_iff] at h
          rw [h] at hvlen
          simp at hvlen
          omega
        · first
          | exact ⟨mx, rfl⟩
          | exact ⟨mx, h⟩
      have hst : get_sensor_stats store now name = .ok (some
          { current := last.value, minVal := mn, maxVal := mx,
            avg := ((validReadingsOf store.readingTimeout now rs).filterMap
                (fun r => r.value)).sum /
              (((validReadingsOf store.readingTimeout now rs).filterMap
                (fun r => r.value)).length : ℚ),
            stdevSq := if 1 < ((validReadingsOf store.readingTimeout now rs).filterMap
                (fun r => r.value)).length then
              some (sampleVariance ((validReadingsOf store.readingTimeout now rs).filterMap
                (fun r => r.value)))
            else none }) := by
        unfold get_sensor_stats
        rw [hL]
        simp only [if_neg (not_lt.mpr hlen)]
        rw [hlast, hmn, hmx]
      refine ⟨⟨fun _ => by omega, fun _ => ⟨_, hst⟩⟩, ?_⟩
      intro st h
      rw [hst] at h
      simp only [Except.ok.injEq, Option.some.injEq] at h
      subst h
      have hminmem := (List.min?_eq_some_iff (le_refl) (min_choice)
        (fun _ _ _ => le_min_iff)).mp hmn
      have hmaxmem := (List.max?_eq_some_iff (le_refl) (max_choice)
        (fun _ _ _ => max_le_iff)).mp hmx
      refine ⟨⟨last, ?_, rfl⟩, ?_, ?_, ?_, ?_, ?_⟩
      · show mostRecentValidReading store.readingTimeout now rs = some last
        unfold mostRecentValidReading
        rw [← getLast?_filter]
        exact hlast
      · simp only [hvc, ← hvlen]
        split_ifs with h1
        · simpa using h1
        · simpa using h1
      · rw [hvv]
        exact hminmem.1
      · rw [hvv]
        exact hmaxmem.1
      · intro v hv
        rw [hvv] at hv
        exact ⟨hminmem.2 v hv, hmaxmem.2 v hv⟩
      · rw [hvv]

/-- C8 counterexample: with `min_readings = 0` and a sensor absent from the
store, the valid-reading count (0) is ≥ `min_readings`, yet `get_sensor_stats`
returns `None` — the claimed unconditional "Some iff valid_count ≥
min_readings" fails. -/
theorem C8_counterexample :
    get_sensor_stats ⟨[], 30, 0⟩ 0 "CPU1 Temp" = .ok none ∧
    (⟨[], 30, 0⟩ : SensorStore).minReadings ≤ validCount ⟨[], 30, 0⟩ 0 "CPU1 Temp" :=
  ⟨by decide, by decide⟩

/-- Store for the C8 witness: one fresh `ok` reading (45 °C at t = 0) followed
by an appended `ns` reading — the most recent *valid* reading is not the last
appended one. -/
def c8Store : SensorStore :=
  ⟨[("CPU1 Temp",
     [⟨"CPU1 Temp", some 45, 0, "ok", none⟩,
      ⟨"CPU1 Temp", none, 5, "ns", none⟩])], 30, 1⟩

/-- Witness for `C8_stats` at `c8Store`, `now = 10`. -/
theorem C8_stats_witness :
    ∃ st, get_sensor_stats c8Store 10 "CPU1 Temp" = .ok (some st) := by
  have h := C8_stats c8Store 10 "CPU1 Temp" (by decide)
  refine h.1.mpr ?_
  show c8Store.minReadings ≤ validCount c8Store 10 "CPU1 Temp"
  norm_num [validCount, validReadingsOf, storeLookup, c8Store, readingAge,
    isValidReading, List.filter]
  decide

/-- One `get_sensor_readings()` entry as consumed by the control manager
(name, optional value, state). -/
structure SdrReading where
  name : String
  value : Option ℚ
  state : String
deriving DecidableEq, Repr

/-- One `rpm_ranges` leaf from the board configuration:
`{min, max, stable_rpm?}`. -/
structure RpmRange where
  minRpm : ℚ
  maxRpm : ℚ
  stableRpm : Option ℚ
deriving DecidableEq, Repr

/-- One `speed_steps` entry:
`{threshold, rpm_ranges: {cpu: {cpu: …}, chassis: {group: …}}}`.  A missing
group key models the `KeyError` the dict lookup would raise. -/
structure StepCfg where
  threshold : Int
  cpuRange : Option RpmRange
  chassisRanges : List (String × RpmRange)
deriving DecidableEq, Repr

/-- `step["rpm_ranges"]["cpu"]["cpu"]` (cpu group) or
`step["rpm_ranges"]["chassis"][group_name]`; `none` = `KeyError`. -/
def stepRangeFor (step : StepCfg) (groupName : String) : Option RpmRange :=
  if groupName = "cpu" then step.cpuRange
  else (step.chassisRanges.find? (fun e => e.1 = groupName)).map (fun e => e.2)

/-- Environment of `_verify_fan_speeds`: results of
`commander.get_sensor_readings()`, the
`config["fans"]["board_config"]["speed_steps"]` lookup, and
`config["safety"].get("min_working_fans", 1)` (a `.get` with default — it
cannot raise). -/
structure VerifyEnv where
  readings : Except PyErr (List SdrReading)
  boardSteps : Except PyErr (List (String × StepCfg))
  minWorkingFans : Nat
deriving Repr

/-- Smallest element of a list of rationals (Python `min` on a nonempty list). -/
def listMinQ : List ℚ → Option ℚ
  | [] => none
  | x :: xs => some (xs.foldl min x)

/-- The first loop of the step search (manager.py lines 219–235): walk
`speed_steps` in order; for each step first resolve the group's RPM ranges
(`KeyError` propagates), then either match by `threshold == min_speed`
(when a minimum speed is requested) or by `min ≤ avg_rpm ≤ max`. -/
def findStepExact (groupName : String) (avgRpm : ℚ) (minSpeed : Option Int) :
    List (String × StepCfg) → Except PyErr (Option StepCfg)
  | [] => .ok none
  | (_, step) :: rest =>
    match stepRangeFor step groupName with
    | none => .error (.keyError groupName)
    | some ranges =>
      match minSpeed with
      | some ms =>
        if step.threshold = ms then .ok (some step)
        else findStepExact groupName avgRpm minSpeed rest
      | none =>
        if ranges.minRpm ≤ avgRpm ∧ avgRpm ≤ ranges.maxRpm then .ok (some step)
        else findStepExact groupName avgRpm minSpeed rest

/-- The second loop (lines 238–250): closest step by `|avg − stable_rpm|`,
strictly improving on the best so far (first candidate always beats the
initial `inf`). -/
def findStepClosest (groupName : String) (avgRpm : ℚ) :
    List (String × StepCfg) → Option (ℚ × StepCfg) → Except PyErr (Option StepCfg)
  | [], best => .ok ((best).map (fun b => b.2))
  | (_, step) :: rest, best =>
    match stepRangeFor step groupName with
    | none => .error (.keyError groupName)
    | some ranges =>
      match ranges.stableRpm with
      | some st =>
        let diff := pyAbs (avgRpm - st)
        match best with
        | none => findStepClosest groupName avgRpm rest (some (diff, step))
        | some (bestDiff, _) =>
          if diff < bestDiff then findStepClosest groupName avgRpm rest (some (diff, step))
          else findStepClosest groupName avgRpm rest best
      | none => findStepClosest groupName avgRpm rest best

/-- Check of one non-empty fan group (manager.py lines 200–299): resolve the
step (exact, then closest, then `speed_steps["full"]`), re-resolve its RPM
ranges, and — only when `min_speed` was requested — fail if the slowest fan is
below the step's `min`; the max-speed and stability comparisons only log. -/
def verifyGroup (steps : List (String × StepCfg)) (groupName : String)
    (fans : List SdrReading) (minSpeed : Option Int) : Except PyErr Bool := do
  let rpms := fans.map (fun f => f.value.getD 0)
  let avgRpm := rpms.sum / rpms.length
  let exact ← findStepExact groupName avgRpm minSpeed steps
  let step ← match exact with
    | some st => pure st
    | none => do
      let closest ← findStepClosest groupName avgRpm steps none
      match closest with
      | some st => pure st
      | none =>
        match steps.find? (fun e => e.1 = "full") with
        | some e => pure e.2
        | none => Except.error (.keyError "full")
  match stepRangeFor step groupName with
  | none => .error (.keyError groupName)
  | some ranges =>
    match minSpeed with
    | some _ =>
      match listMinQ rpms with
      | none => .error (.valueError "min() arg is an empty sequence")
      | some slowest => pure (decide (¬(slowest < ranges.minRpm)))
    | none => pure true

/-- `fans` with a usable reading, grouped as in manager.py lines 183–193. -/
def validFansOf (rs : List SdrReading) : List SdrReading :=
  (rs.filter (fun r => strBeginsWith r.name "FAN")).filter
    (fun f => decide (f.state ≠ "ns") && f.value.isSome)

/-- The `for group_name, fans in groups.items()` loop in insertion order;
the board-config lookup happens inside the loop, for the first non-empty
group. -/
def verifyGroups (env : VerifyEnv) (validFans : List SdrReading)
    (minSpeed : Option Int) : List String → Except PyErr Bool
  | [] => .ok true
  | g :: gs =>
    let fans := validFans.filter (fun f => fanGroupFor f.name = g)
    if fans.isEmpty then verifyGroups env validFans minSpeed gs
    else do
      let steps ← env.boardSteps
      let ok ← verifyGroup steps g fans minSpeed
      if ok then verifyGroups env validFans minSpeed gs else pure false

/-- `ControlManager._verify_fan_speeds` (manager.py lines 159–312): the whole
body runs under `try`, and `except Exception` returns `False`.  The final
working-fan count is the total of the group sizes, i.e. the number of usable
fan readings. -/
def _verify_fan_speeds (env : VerifyEnv) (minSpeed : Option Int) : Bool :=
  let body : Except PyErr Bool := do
    let rs ← env.readings
    let fanReadings := rs.filter (fun r => strBeginsWith r.name "FAN")
    if fanReadings.isEmpty then pure false
    else do
      let validFans := validFansOf rs
      let groupsOk ← verifyGroups env validFans minSpeed ["high_rpm", "low_rpm", "cpu"]
      if ¬groupsOk then pure false
      else pure (decide (env.minWorkingFans ≤ validFans.length))
  match body with
  | .ok b => b
  | .error _ => false

/-- Anchored glob matching with fuel (each recursive call shrinks
`pattern.length + name.length`, so `|p| + |s| + 1` fuel always suffices).
This is the semantics of `re.compile(base_sensor.replace('*', '.*'))` followed
by `.match(name)` for the patterns appearing in zone configurations: `*` maps
to `.*`, every other character is literal, the match is anchored at the start
and free at the end. -/
def globMatchFuel : Nat → List Char → List Char → Bool
  | 0, _, _ => false
  | _ + 1, [], _ => true
  | fuel + 1, c :: ps, s =>
    if c = '*' then
      globMatchFuel fuel ps s ||
        (match s with
         | [] => false
         | _ :: s2 => globMatchFuel fuel (c :: ps) s2)
    else
      match s with
      | [] => false
      | d :: ds => c = d && globMatchFuel fuel ps ds

/-- `re.compile(pattern.replace('*', '.*'), re.IGNORECASE).match(name)`. -/
def globMatchStart (pattern name : String) : Bool :=
  let p := (strLower pattern).data
  let n := (strLower name).data
  globMatchFuel (p.length + n.length + 1) p n

example : globMatchStart "CPU*" "cpu1 temp" = true := by decide
example : globMatchStart "CPU* Temp" "CPU1 Temp" = true := by decide
example : globMatchStart "System Temp" "System Temp2" = true := by decide
example : globMatchStart "CPU*" "MCPU" = false := by decide

/-- A zone's safety-relevant configuration
(`config["fans"]["zones"][name]`). -/
structure ZoneSafetyCfg where
  enabled : Bool
  sensors : List String
  criticalMax : ℚ
deriving DecidableEq, Repr

/-- Environment of `_check_safety`: results of the fallible operations it
performs, the reading age at the watchdog check, the watchdog timeout, and the
environment of the `_verify_fan_speeds` call it makes last. -/
structure SafetyEnv where
  updateResult : Except PyErr Unit
  readings : Except PyErr (List SdrReading)
  nvmeStats : Except PyErr (List (String × ℚ))
  zones : Except PyErr (List (String × ZoneSafetyCfg))
  elapsed : ℚ
  watchdogTimeout : ℚ
  verifyEnv : VerifyEnv
deriving Repr

/-- Readings whose name contains `temp` case-insensitively
(`"temp" in r["name"].lower()`). -/
def tempReadingsOf (rs : List SdrReading) : List SdrReading :=
  rs.filter (fun r => strContainsSub (strLower r.name) "temp")

/-- The temperatures collected for one zone (manager.py lines 358–379):
for each configured pattern, the values of anchored-matching IPMI temperature
readings, then — if the pattern mentions `NVMe` — all NVMe temperatures. -/
def zoneTempsFor (tempReads : List SdrReading) (nvmeTemps : List ℚ)
    (zcfg : ZoneSafetyCfg) : List ℚ :=
  zcfg.sensors.foldl (fun acc pat =>
    acc ++ (tempReads.filterMap (fun r =>
        if globMatchStart pat r.name then r.value else none))
      ++ (if strContainsSub pat "NVMe" then nvmeTemps else [])) []

/-- `ControlManager._check_safety` (manager.py lines 314–405): update sensor
readings, fail on any `cr` state, require at least one temperature from some
source, compare each enabled zone's max temperature against its
`critical_max`, check the reading-age watchdog, then `_verify_fan_speeds` —
all under `try`, with `except Exception` returning `False`. -/
def _check_safety (env : SafetyEnv) : Bool :=
  let body : Except PyErr Bool := do
    let _ ← env.updateResult
    let rs ← env.readings
    if rs.any (fun r => r.state = "cr") then pure false
    else do
      let tempReads := tempReadingsOf rs
      let ipmiTemps := tempReads.filterMap (fun r => r.value)
      let nvme ← env.nvmeStats
      let nvmeTemps := nvme.map (fun e => e.2)
      if (ipmiTemps ++ nvmeTemps).isEmpty then pure false
      else do
        let zones ← env.zones
        let zonesOk := (zones.filter (fun z => z.2.enabled)).all (fun z =>
          match (zoneTempsFor tempReads nvmeTemps z.2).max? with
          | none => true
          | some m => decide (m < z.2.criticalMax))
        if ¬zonesOk then pure false
        else if env.watchdogTimeout < env.elapsed then pure false
        else pure (_verify_fan_speeds env.verifyEnv none)
  match body with
  | .ok b => b
  | .error _ => false

/-- Every fan is classified into one of the three groups. -/
theorem fanGroupFor_mem (name : String) :
    fanGroupFor name ∈ ["high_rpm", "low_rpm", "cpu"] := by
  unfold fanGroupFor
  split_ifs <;> simp

/-- A non-empty usable-fan list yields a non-empty group. -/
theorem exists_nonempty_group (fans : List SdrReading) (h : fans ≠ []) :
    ∃ g ∈ ["high_rpm", "low_rpm", "cpu"],
      fans.filter (fun f => fanGroupFor f.name = g) ≠ [] := by
  rcases fans with _ | ⟨f, rest⟩
  · exact absurd rfl h
  · refine ⟨fanGroupFor f.name, fanGroupFor_mem f.name, ?_⟩
    intro hemp
    have hf : f ∈ (f :: rest).filter (fun f2 => decide (fanGroupFor f2.name = fanGroupFor f.name)) := by
      rw [List.mem_filter]
      simp
    rw [hemp] at hf
    simp at hf

/-- When the board-configuration lookup raises and some group is non-empty,
the group loop propagates the exception. -/
theorem verifyGroups_boardErr (env : VerifyEnv) (e : PyErr)
    (hb : env.boardSteps = .error e) (fans : List SdrReading) (ms : Option Int) :
    ∀ gs : List String,
      (∃ g ∈ gs, fans.filter (fun f => fanGroupFor f.name = g) ≠ []) →
      verifyGroups env fans ms gs = .error e := by
  intro gs
  induction gs with
  | nil =>
    rintro ⟨g, hg, _⟩
    simp at hg
  | cons g gs ih =>
    rintro ⟨g2, hg2, hne⟩
    unfold verifyGroups
    by_cases hemp : (fans.filter (fun f => fanGroupFor f.name = g)).isEmpty
    · rw [if_pos hemp]
      apply ih
      rcases List.mem_cons.mp hg2 with heq | hmem
      · exfalso
        rw [List.isEmpty_iff] at hemp
        subst heq
        exact hne hemp
      · exact ⟨g2, hmem, hne⟩
    · rw [if_neg hemp]
      simp [hb, Bind.bind, Except.bind]

/-- C10: safety evaluation and fan-speed verification are fail-closed — when
any of the fallible operations they perform (sensor update, sensor-reading
retrieval, NVMe statistics, zone-configuration lookup, board-configuration
lookup) raises, `_check_safety` and `_verify_fan_speeds` return `False`
instead of propagating the exception (both functions are total and
`Bool`-valued; the board-configuration lookup in `_verify_fan_speeds` is only
reached when some usable fan reading exists). -/
theorem C10_fail_closed :
    (∀ (env : SafetyEnv) (e : PyErr), env.updateResult = .error e →
      _check_safety env = false) ∧
    (∀ (env : SafetyEnv) (e : PyErr), env.readings = .error e →
      _check_safety env = false) ∧
    (∀ (env : SafetyEnv) (e : PyErr), env.nvmeStats = .error e →
      _check_safety env = false) ∧
    (∀ (env : SafetyEnv) (e : PyErr), env.zones = .error e →
      _check_safety env = false) ∧
    (∀ (env : VerifyEnv) (ms : Option Int) (e : PyErr), env.readings = .error e →
      _verify_fan_speeds env ms = false) ∧
    (∀ (env : VerifyEnv) (ms : Option Int) (e : PyErr) (rs : List SdrReading),
      env.readings = .ok rs → env.boardSteps = .error e → validFansOf rs ≠ [] →
      _verify_fan_speeds env ms = false) := by
  refine ⟨?_, ?_, ?_, ?_, ?_, ?_⟩
  · intro env e h
    simp [_check_safety, h, Bind.bind, Except.bind]
  · intro env e h
    unfold _check_safety
    rcases hu : env.updateResult with e2 | u
    · simp [Bind.bind, Except.bind]
    · simp [h, Bind.bind, Except.bind]
  · intro env e h
    unfold _check_safety
    rcases hu : env.updateResult with e2 | u
    · simp [Bind.bind, Except.bind]
    · rcases hr : env.readings with e2 | rs
      · simp [Bind.bind, Except.bind]
      · by_cases hcr : rs.any (fun r => r.state = "cr")
        · simp [Bind.bind, Except.bind, hcr, Pure.pure, Except.pure]
        · simp [Bind.bind, Except.bind, hcr, h]
  · intro env e h
    unfold _check_safety
    rcases hu : env.updateResult with e2 | u
    · simp [Bind.bind, Except.bind]
    · rcases hr : env.readings with e2 | rs
      · simp [Bind.bind, Except.bind]
      · by_cases hcr : rs.any (fun r => r.state = "cr")
        · simp [Bind.bind, Except.bind, hcr, Pure.pure, Except.pure]
        · rcases hn : env.nvmeStats with e2 | nv
          · simp [Bind.bind, Except.bind, hcr, hn]
          · by_cases hemp : ((tempReadingsOf rs).filterMap (fun r => r.value) ++
                nv.map (fun x => x.2)).isEmpty
            · simp [Bind.bind, Except.bind, hcr, hn, hemp, Pure.pure, Except.pure]
            · simp [Bind.bind, Except.bind, hcr, hn, hemp, h]
  · intro env ms e h
    simp [_verify_fan_speeds, h, Bind.bind, Except.bind]
  · intro env ms e rs hr hb hne
    unfold _verify_fan_speeds
    have hfr : ¬((rs.filter (fun r => strBeginsWith r.name "FAN")).isEmpty = true) := by
      intro hemp
      rw [List.isEmpty_iff] at hemp
      apply hne
      unfold validFansOf
      rw [hemp]
      rfl
    have hgs := verifyGroups_boardErr env e hb (validFansOf rs) ms
      ["high_rpm", "low_rpm", "cpu"] (exists_nonempty_group _ hne)
    simp [hr, Bind.bind, Except.bind, hfr, hgs]

/-- A benign safety environment for the C10 witness. -/
def c10EnvBase : SafetyEnv :=
  ⟨.ok (), .ok [], .ok [], .ok [], 0, 90, ⟨.ok [], .ok [], 1⟩⟩

/-- Witness for `C10_fail_closed`: each fallible operation raising at a
concrete environment yields `false`. -/
theorem C10_fail_closed_witness :
    _check_safety { c10EnvBase with updateResult := .error (.ipmiError "update failed") } = false ∧
    _check_safety { c10EnvBase with readings := .error (.ipmiError "sdr failed") } = false ∧
    _check_safety { c10EnvBase with nvmeStats := .error (.ipmiError "nvme failed") } = false ∧
    _check_safety { c10EnvBase with zones := .error (.keyError "zones") } = false ∧
    _verify_fan_speeds ⟨.error (.ipmiError "sdr failed"), .ok [], 1⟩ none = false ∧
    _verify_fan_speeds ⟨.ok [⟨"FAN1", some 1000, "ok"⟩], .error (.keyError "board_config"), 1⟩
      none = false := by
  have h := C10_fail_closed
  exact ⟨h.1 _ _ rfl, h.2.1 _ _ rfl, h.2.2.1 _ _ rfl, h.2.2.2.1 _ _ rfl,
    h.2.2.2.2.1 _ none _ rfl, h.2.2.2.2.2 _ none _ _ rfl rfl (by decide)⟩

/-- Externally visible operations of `_emergency_action`, in order. -/
inductive EmerEffect where
  | setSpeed (zone : String) (percent : Int)
  | verifySpeeds (minSpeed : Option Int)
  | autoMode
deriving DecidableEq, Repr

/-- Environment of `_emergency_action`: results of
`commander.set_fan_speed(100, zone)` for each zone, the environment of the
`_verify_fan_speeds(min_speed=90)` call, and the result of
`commander.set_auto_mode()`. -/
structure EmerEnv where
  chassisResult : Except PyErr Unit
  cpuResult : Except PyErr Unit
  verifyEnv : VerifyEnv
  autoModeResult : Except PyErr Unit
deriving Repr

/-- Result of `_emergency_action`: its effect trace and whether
`self._in_emergency` was set (only reached at the end of the `try` body). -/
structure EmerOutcome where
  trace : List EmerEffect
  inEmergencySet : Bool
deriving DecidableEq, Repr

/-- `ControlManager._emergency_action` (manager.py lines 407–432): inside
`try`, command chassis to 100 %, then cpu to 100 %, then verify at
`min_speed=90` and fall back to auto mode when verification fails, then set
the emergency flag; `except Exception` attempts `set_auto_mode()` once more
(its own failure is swallowed with a critical log). -/
def _emergency_action (env : EmerEnv) : EmerOutcome :=
  match env.chassisResult with
  | .error _ => ⟨[.setSpeed "chassis" 100, .autoMode], false⟩
  | .ok _ =>
    match env.cpuResult with
    | .error _ => ⟨[.setSpeed "chassis" 100, .setSpeed "cpu" 100, .autoMode], false⟩
    | .ok _ =>
      if _verify_fan_speeds env.verifyEnv (some 90) then
        ⟨[.setSpeed "chassis" 100, .setSpeed "cpu" 100, .verifySpeeds (some 90)], true⟩
      else
        match env.autoModeResult with
        | .ok _ =>
          ⟨[.setSpeed "chassis" 100, .setSpeed "cpu" 100, .verifySpeeds (some 90),
            .autoMode], true⟩
        | .error _ =>
          ⟨[.setSpeed "chassis" 100, .setSpeed "cpu" 100, .verifySpeeds (some 90),
            .autoMode, .autoMode], false⟩

/-- Environment of one `_control_loop` iteration: the safety-check
environment, the emergency environment, and the per-zone update block of the
tick body (whose internals are covered by the other claims; an exception
there is caught by the tick's `except` and also triggers the emergency
action). -/
structure TickEnv where
  safety : SafetyEnv
  emer : EmerEnv
  zoneUpdate : Except PyErr Unit
deriving Repr

/-- One iteration of the `while self._running` loop (manager.py lines
436–509): a failing safety check (or an exception in the body) runs
`_emergency_action`; `some` carries the emergency outcome of the tick,
`none` means a normal tick. -/
def controlTick (t : TickEnv) : Option EmerOutcome :=
  if _check_safety t.safety then
    match t.zoneUpdate with
    | .ok _ => none
    | .error _ => some (_emergency_action t.emer)
  else some (_emergency_action t.emer)

/-- A run of consecutive control-loop iterations. -/
def controlRun (ticks : List TickEnv) : List (Option EmerOutcome) :=
  ticks.map controlTick

/-- Emergency environment in which the chassis-zone command raises. -/
def c5FailEnv : EmerEnv :=
  ⟨.error (.ipmiError "chassis dispatch failed"), .ok (), ⟨.ok [], .ok [], 1⟩, .ok ()⟩

/-- C5 counterexample: when the chassis-zone `set_fan_speed(100)` raises, the
`except` handler runs immediately and the cpu-zone attempt is *not* made —
refuting "the cpu-zone set_fan_speed(100) attempt is made even if the
chassis-zone attempt fails". -/
theorem C5_counterexample :
    _emergency_action c5FailEnv = ⟨[.setSpeed "chassis" 100, .autoMode], false⟩ ∧
    EmerEffect.setSpeed "cpu" 100 ∉ (_emergency_action c5FailEnv).trace :=
  ⟨by decide, by decide⟩

/-- C5 (amended): the emergency action commands the chassis zone and then the
cpu zone to 100 % — the cpu attempt is made whenever the chassis attempt
returns, but is skipped (with a best-effort auto-mode restore) when the
chassis attempt raises; and while the safety check fails, every control-loop
iteration runs the emergency action. -/
theorem C5_emergency (env : EmerEnv) :
    ((∃ e, env.chassisResult = .error e) →
      (_emergency_action env).trace = [.setSpeed "chassis" 100, .autoMode]) ∧
    (env.chassisResult = .ok () →
      EmerEffect.setSpeed "cpu" 100 ∈ (_emergency_action env).trace) ∧
    (∀ (ticks : List TickEnv) (i : Nat) (hi : i < ticks.length)
        (hi2 : i < (controlRun ticks).length),
      _check_safety (ticks.get ⟨i, hi⟩).safety = false →
      (controlRun ticks).get ⟨i, hi2⟩ =
        some (_emergency_action (ticks.get ⟨i, hi⟩).emer)) := by
  refine ⟨?_, ?_, ?_⟩
  · rintro ⟨e, he⟩
    simp [_emergency_action, he]
  · intro hok
    unfold _emergency_action
    rw [hok]
    rcases env.cpuResult with e | u
    · simp
    · split_ifs
      · simp
      · rcases env.autoModeResult with e | u <;> simp
  · intro ticks i hi hi2 hchk
    have hget : (controlRun ticks).get ⟨i, hi2⟩ = controlTick (ticks.get ⟨i, hi⟩) := by
      simp [controlRun]
    rw [hget]
    unfold controlTick
    rw [hchk]
    simp

/-- Safety environment whose sensor update raises — its safety check fails. -/
def c5UnsafeSafety : SafetyEnv :=
  ⟨.error (.ipmiError "update failed"), .ok [], .ok [], .ok [], 0, 90, ⟨.ok [], .ok [], 1⟩⟩

/-- Emergency environment in which both zone commands succeed. -/
def c5OkEnv : EmerEnv := ⟨.ok (), .ok (), ⟨.ok [], .ok [], 1⟩, .ok ()⟩

/-- Witness for `C5_emergency`: with a healthy commander both zones are
attempted, and an unsafe tick runs the emergency action. -/
theorem C5_emergency_witness :
    EmerEffect.setSpeed "cpu" 100 ∈ (_emergency_action c5OkEnv).trace ∧
    (controlRun [⟨c5UnsafeSafety, c5OkEnv, .ok ()⟩]).get ⟨0, by decide⟩ =
      some (_emergency_action c5OkEnv) := by
  have h := C5_emergency c5OkEnv
  exact ⟨h.2.1 rfl, h.2.2 [⟨c5UnsafeSafety, c5OkEnv, .ok ()⟩] 0 (by decide) (by decide)
    (by decide)⟩

/-- One `STABLE_POINTS` entry of `StableSpeedCurve` (curve.py lines 165–199);
the per-point `rpm_ranges` are not consulted by `__init__` and are omitted
here. -/
structure StablePoint where
  temp : ℚ
  speed : ℚ
  hexSpeed : String
deriving DecidableEq, Repr

/-- `StableSpeedCurve.STABLE_POINTS`. -/
def STABLE_POINTS : List StablePoint :=
  [⟨40, 100, "ff"⟩, ⟨35, 75, "60"⟩, ⟨30, 50, "32"⟩]

/-- The body of `StableSpeedCurve.__init__(min_speed=50, max_speed=100)`
(curve.py lines 220–242): validate the 50–100 bounds, filter the stable
points into range, and fail when none remain. -/
def stableSpeedCurveInit (minSpeed maxSpeed : ℚ) : Except PyErr (List StablePoint) :=
  if ¬(50 ≤ minSpeed ∧ minSpeed ≤ 100) then
    .error (.valueError "Invalid min_speed, must be 50-100")
  else if ¬(50 ≤ maxSpeed ∧ maxSpeed ≤ 100) then
    .error (.valueError "Invalid max_speed, must be 50-100")
  else if minSpeed > maxSpeed then
    .error (.valueError "min_speed cannot be greater than max_speed")
  else
    let points := STABLE_POINTS.filter
      (fun p => decide (minSpeed ≤ p.speed) && decide (p.speed ≤ maxSpeed))
    if points.isEmpty then
      .error (.valueError "No stable points available")
    else .ok points

/-- The parameter names accepted by `StableSpeedCurve.__init__`
(besides `self`). -/
def stableSpeedCurveParams : List String := ["min_speed", "max_speed"]

/-- Python call semantics for `StableSpeedCurve(**kwargs)` with
keyword-only call sites: a keyword argument that is not a declared parameter
raises `TypeError` before the constructor body runs; with no keyword
arguments the declared defaults (50, 100) apply.  The only call site under
study passes exactly `config=...`. -/
def callStableSpeedCurveKw (kwargs : List String) : Except PyErr (List StablePoint) :=
  match kwargs.find? (fun k => ¬ stableSpeedCurveParams.contains k) with
  | some k =>
    .error (.typeError ("__init__() got an unexpected keyword argument " ++ k))
  | none => stableSpeedCurveInit 50 100

/-- The per-zone fan curve built by `_init_fan_curves`: a hysteresis wrapper
(width, fresh `None` state) around the stable-speed curve's points. -/
structure ZoneCurve where
  width : ℚ
  points : List StablePoint
  lastEval : Option (ℚ × StablePoint)
deriving DecidableEq, Repr

/-- The `for zone_name, zone_config in fan_config["zones"].items()` loop of
`_init_fan_curves` (manager.py lines 80–97): skip disabled zones; for enabled
zones evaluate `StableSpeedCurve(config=self.config)` — passing the keyword
argument `config` — then wrap in `HysteresisCurve` with the configured
hysteresis width.  There is no `try` here: an exception propagates. -/
def initFanCurvesGo (hysteresis : ℚ) :
    List (String × Bool) → Except PyErr (List (String × ZoneCurve))
  | [] => .ok []
  | (name, enabled) :: rest =>
    if ¬enabled then initFanCurvesGo hysteresis rest
    else
      match callStableSpeedCurveKw ["config"] with
      | .error e => .error e
      | .ok pts => do
        let tail ← initFanCurvesGo hysteresis rest
        pure ((name, ⟨hysteresisWidth hysteresis, pts, none⟩) :: tail)

/-- The configuration slice `_init_fan_curves` consumes: the zones' enabled
flags and `config["temperature"]["hysteresis"]`. -/
structure CurveInitCfg where
  zones : List (String × Bool)
  hysteresis : ℚ
deriving DecidableEq, Repr

/-- `ControlManager._init_fan_curves`. -/
def _init_fan_curves (cfg : CurveInitCfg) : Except PyErr (List (String × ZoneCurve)) :=
  initFanCurvesGo cfg.hysteresis cfg.zones

/-- `StableSpeedCurve(config=...)` raises `TypeError`: `config` is not among
the constructor's parameters. -/
theorem callConfigRaises :
    callStableSpeedCurveKw ["config"] =
      .error (.typeError "__init__() got an unexpected keyword argument config") := by
  decide

theorem initFanCurvesGo_raises (w : ℚ) :
    ∀ zones : List (String × Bool), (∃ z ∈ zones, z.2 = true) →
      initFanCurvesGo w zones =
        .error (.typeError "__init__() got an unexpected keyword argument config") := by
  intro zones
  induction zones with
  | nil =>
    rintro ⟨z, hz, _⟩
    simp at hz
  | cons zh rest ih =>
    rintro ⟨z, hz, hen⟩
    rcases zh with ⟨zn, ze⟩
    unfold initFanCurvesGo
    rcases List.mem_cons.mp hz with heq | hmem
    · subst heq
      have hze : ze = true := hen
      rw [hze]
      simp [callConfigRaises]
    · by_cases hze : ze = true
      · rw [hze]
        simp [callConfigRaises]
      · simp only [Bool.not_eq_true] at hze
        rw [hze]
        simp only [Bool.false_eq_true, not_false_eq_true, if_pos]
        exact ih ⟨z, hmem, hen⟩

/-- C9 (code bug): for every configuration with at least one enabled zone,
`_init_fan_curves` raises `TypeError` instead of creating the fan curves —
the call site passes `StableSpeedCurve(config=self.config)` but
`StableSpeedCurve.__init__` accepts only `min_speed` and `max_speed`, so the
hysteresis-wrapped stable-step curve is never constructed. -/
theorem C9_init_fan_curves_raises (cfg : CurveInitCfg)
    (h : ∃ z ∈ cfg.zones, z.2 = true) :
    _init_fan_curves cfg =
      .error (.typeError "__init__() got an unexpected keyword argument config") := by
  unfold _init_fan_curves
  exact initFanCurvesGo_raises cfg.hysteresis cfg.zones h

/-- Witness for `C9_init_fan_curves_raises` on a one-zone configuration. -/
theorem C9_init_fan_curves_raises_witness :
    _init_fan_curves ⟨[("chassis", true)], 3⟩ =
      .error (.typeError "__init__() got an unexpected keyword argument config") :=
  C9_init_fan_curves_raises ⟨[("chassis", true)], 3⟩ ⟨("chassis", true), by decide, rfl⟩

end Superfan
